import Mathlib

/-
Verification of the collis timetable backend core: the booking conflict
validator (timetable/serializers.py, LessonSerializer.validate), the
change-tracking notifier (timetable/signals.py and timetable/utils.py),
notification persistence across lesson deletion (timetable/models.py and
timetable/views.py) and the read-receipt ledger
(timetable/views.py, NotificationViewSet.mark_as_read).

Conventions of the embedding:
- clock times (Django TimeField values) are seconds since midnight, as Nat;
  the duration test in the source divides total_seconds by 60 and compares
  with 30 and 240 minutes, which is equivalent to comparing seconds with
  1800 and 14400;
- dates (Django DateField values) are abstract day indices, as Nat;
- primary keys and foreign keys are Nat identifiers;
- the Django queryset calls (filter, exclude, exists) become List.filter
  and list-bounded existentials over an explicit list of stored rows.
-/

namespace Collis

/-- Room row (timetable/models.py, class Room): building, hall and a
nonnegative capacity. -/
structure Room where
  id : Nat
  building : String
  hall : String
  capacity : Nat
deriving DecidableEq, Repr

/-- Group row (timetable/models.py, class Group). studentCount stands for
the reverse-relation count g.students.count() used by the capacity check. -/
structure Group where
  id : Nat
  name : String
  studentCount : Nat
deriving DecidableEq, Repr

/-- Lesson row as the validator sees it (timetable/models.py, class Lesson):
foreign keys to course, lecturer and room, the date, the time window and
the many-to-many group ids. courseCode denormalizes lesson.course.course_code. -/
structure Lesson where
  pk : Nat
  courseId : Nat
  courseCode : String
  lecturerId : Nat
  roomId : Nat
  date : Nat
  startingTime : Nat
  endingTime : Nat
  groupIds : List Nat
deriving DecidableEq, Repr

/-- The exceptions LessonSerializer.validate can raise, one constructor per
raise site (timetable/serializers.py lines 126-170). -/
inductive VError where
  | endBeforeStart : VError
  | tooShort : VError
  | tooLong : VError
  | capacityExceeded (capacity total : Nat) : VError
  | roomConflict : VError
  | lecturerConflict : VError
  | groupConflict : VError
deriving DecidableEq, Repr

/-- The field tag each ValidationError is raised under in the source. -/
def VError.field : VError → String
  | .endBeforeStart => "ending_time"
  | .tooShort => "ending_time"
  | .tooLong => "ending_time"
  | .capacityExceeded _ _ => "room"
  | .roomConflict => "room"
  | .lecturerConflict => "lecturer"
  | .groupConflict => "groups"

/-- The message text each ValidationError carries in the source. -/
def VError.message : VError → String
  | .endBeforeStart => "Lesson ending time must be after starting time."
  | .tooShort => "Lesson must be at least 30 minutes long."
  | .tooLong => "Lesson cannot exceed 4 hours."
  | .capacityExceeded capacity total =>
      "Room capacity (" ++ toString capacity
        ++ ") exceeded. Total students from selected groups: " ++ toString total
  | .roomConflict => "This room is already occupied during this time slot."
  | .lecturerConflict => "This lecturer is already busy during this time slot."
  | .groupConflict =>
      "One or more of the selected groups already has a lesson during this time slot."

/-- Sum of g.students.count() over the selected groups
(timetable/serializers.py line 146). -/
def totalStudents (groups : List Group) : Nat :=
  (groups.map Group.studentCount).sum

/-- Lesson.objects.filter(date=date) followed by exclude(pk=instance.pk)
when validating an update (timetable/serializers.py lines 153-155). -/
def overlapQueryset (existing : List Lesson) (date : Nat) (inst : Option Nat) :
    List Lesson :=
  (existing.filter fun l => l.date == date).filter fun l =>
    match inst with
    | some pk => l.pk != pk
    | none => true

/-- LessonSerializer.validate (timetable/serializers.py lines 119-172) on the
effective field values (request data merged with the instance under update).
The source raises at the first failed check, so the result is a single
VError or acceptance. inst is some pk when validating an update of the
stored lesson with that primary key, none on create. -/
def validate (existing : List Lesson) (inst : Option Nat)
    (date startingTime endingTime : Nat) (room : Room) (lecturer : Nat)
    (groups : List Group) : Except VError Unit :=
  if startingTime ≥ endingTime then .error .endBeforeStart
  else if endingTime - startingTime < 1800 then .error .tooShort
  else if endingTime - startingTime > 14400 then .error .tooLong
  else if groups ≠ [] ∧ totalStudents groups > room.capacity then
    .error (.capacityExceeded room.capacity (totalStudents groups))
  else if ∃ l ∈ overlapQueryset existing date inst,
      l.roomId = room.id ∧ l.startingTime < endingTime ∧ l.endingTime > startingTime then
    .error .roomConflict
  else if ∃ l ∈ overlapQueryset existing date inst,
      l.lecturerId = lecturer ∧ l.startingTime < endingTime ∧ l.endingTime > startingTime then
    .error .lecturerConflict
  else if ∃ l ∈ overlapQueryset existing date inst,
      (∃ g ∈ groups, g.id ∈ l.groupIds)
        ∧ l.startingTime < endingTime ∧ l.endingTime > startingTime then
    .error .groupConflict
  else .ok ()

/-- The field tag of a validation outcome, none on acceptance. -/
def fieldOf : Except VError Unit → Option String
  | .error e => some e.field
  | .ok _ => none

/-- Whether a validation outcome is the room-capacity rejection. -/
def isCapacityError : Except VError Unit → Bool
  | .error (.capacityExceeded _ _) => true
  | _ => false

/-- Whether the pattern occurs as a contiguous substring of s. -/
def strContains (s pat : String) : Bool :=
  decide (pat.data <:+: s.data)

/-- Two-digit zero-padded rendering of an hour or minute component. -/
def pad2 (n : Nat) : String :=
  if n < 10 then "0" ++ toString n else toString n

/-- Rendering of a clock time by strftime with format HH:MM, on seconds
since midnight. -/
def formatTime (t : Nat) : String :=
  pad2 (t / 3600) ++ ":" ++ pad2 (t % 3600 / 60)

/-- Rendering of a date value (str or strftime with format Y-m-d) on the
abstract day index of the embedding. -/
def formatDate (d : Nat) : String :=
  toString d

/-- The snapshot dictionary instance._old_data captured by the pre_save
receiver capture_old_lesson_data (timetable/signals.py lines 4-27). -/
structure OldData where
  course_id : Nat
  course_code : String
  lecturer_id : Nat
  lecturer_name : String
  room_id : Nat
  room_name : String
  lesson_type : String
  date : Nat
  starting_time : Nat
  ending_time : Nat
  group_ids : List Nat
deriving DecidableEq, Repr

/-- The saved lesson as the post_save receiver reads it: foreign keys plus
the denormalized display values the message templates use
(course.course_code, lecturer.fullname, room.building, room.hall,
get_lesson_type_display, groups). -/
structure LessonState where
  pk : Nat
  courseId : Nat
  courseCode : String
  courseTitle : String
  lecturerId : Nat
  lecturerName : String
  roomId : Nat
  roomBuilding : String
  roomHall : String
  lessonType : String
  lessonTypeDisplay : String
  date : Nat
  startingTime : Nat
  endingTime : Nat
  groupIds : List Nat
  groupNames : List String
deriving DecidableEq, Repr

/-- Equality of the two python id sets set(old.groups) == set(current.groups):
mutual containment, so order and duplicates are ignored. -/
def sameSet (a b : List Nat) : Bool :=
  a.all b.contains && b.all a.contains

/-- The changed_fields list the post_save receiver builds field by field
(timetable/signals.py lines 41-68), in source order. -/
def changedFields (old : OldData) (inst : LessonState) : List String :=
  (if old.course_id ≠ inst.courseId
    then ["Course changed to " ++ inst.courseCode] else [])
  ++ (if old.lecturer_id ≠ inst.lecturerId
    then ["Lecturer changed to " ++ inst.lecturerName] else [])
  ++ (if old.room_id ≠ inst.roomId
    then ["Room changed to " ++ inst.roomBuilding ++ " - " ++ inst.roomHall] else [])
  ++ (if old.lesson_type ≠ inst.lessonType
    then ["Type changed to " ++ inst.lessonTypeDisplay] else [])
  ++ (if old.date ≠ inst.date
    then ["Date changed to " ++ formatDate inst.date] else [])
  ++ (if old.starting_time ≠ inst.startingTime
    then ["Start time changed to " ++ formatTime inst.startingTime] else [])
  ++ (if old.ending_time ≠ inst.endingTime
    then ["End time changed to " ++ formatTime inst.endingTime] else [])
  ++ (if sameSet old.group_ids inst.groupIds then [] else ["Groups changed"])

/-- Notification row (timetable/models.py, class Notification): an optional
weak reference to the lesson plus the denormalized snapshot fields. -/
structure Notification where
  lesson : Option Nat
  course_code : String
  course_title : String
  lesson_date : Nat
  lesson_time : Nat
  group_names : String
  message_type : String
  message_text : String
  is_sent : Bool
deriving DecidableEq, Repr

/-- The message_type choices of the Notification model
(timetable/models.py lines 147-151). -/
def notificationTypeChoices : List (String × String) :=
  [("ANNOUNCEMENT", "Announcement"),
   ("RESCHEDULE", "Reschedule"),
   ("CANCELLATION", "Cancellation")]

/-- The base message shared by every template in create_lesson_notification
(timetable/utils.py line 26). -/
def baseMsg (l : LessonState) : String :=
  l.courseCode ++ " for " ++ String.intercalate ", " l.groupNames
    ++ " on " ++ formatDate l.date ++ " at " ++ formatTime l.startingTime

/-- create_lesson_notification (timetable/utils.py lines 5-50): renders the
message for the given message_type and returns the Notification row it
persists. -/
def create_lesson_notification (l : LessonState) (message_type : String)
    (changed_fields : List String) : Notification :=
  let message_text :=
    if message_type == "CANCELLATION" then
      "CANCELLED: " ++ baseMsg l
    else if message_type == "RESCHEDULE" then
      "UPDATED: " ++ baseMsg l ++ ". Changes: "
        ++ String.intercalate ", " changed_fields
    else
      "NEW LESSON: " ++ baseMsg l ++ " in " ++ l.roomBuilding ++ " - " ++ l.roomHall
  { lesson := some l.pk
    course_code := l.courseCode
    course_title := l.courseTitle
    lesson_date := l.date
    lesson_time := l.startingTime
    group_names := String.intercalate ", " l.groupNames
    message_type := message_type
    message_text := message_text
    is_sent := false }

/-- The post_save receiver lesson_save_notification
(timetable/signals.py lines 29-75): the list of Notification rows one save
produces. created is the post_save flag; old is instance._old_data, present
exactly when the save was an update of an existing row. -/
def lesson_save_notification (created : Bool) (old : Option OldData)
    (inst : LessonState) : List Notification :=
  if created then
    [create_lesson_notification inst "ANNOUNCEMENT" []]
  else
    match old with
    | some o =>
      let cf := changedFields o inst
      if cf ≠ [] then [create_lesson_notification inst "RESCHEDULE" cf] else []
    | none => []

/-- The on_delete=SET_NULL behaviour of Notification.lesson
(timetable/models.py line 153): deleting the lesson with the given pk nulls
the reference in every notification pointing at it, touching nothing else. -/
def deleteLessonCascade (pk : Nat) (notifs : List Notification) :
    List Notification :=
  notifs.map fun n =>
    if n.lesson == some pk then { n with lesson := none } else n

/-- LessonViewSet.perform_destroy (timetable/views.py lines 130-136): create
the CANCELLATION notification first, then delete the lesson, which runs the
SET_NULL cascade over the notification table. -/
def perform_destroy (inst : LessonState) (notifs : List Notification) :
    List Notification :=
  deleteLessonCascade inst.pk
    (notifs ++ [create_lesson_notification inst "CANCELLATION" []])

/-- NotificationRead row (timetable/migrations/0004_notificationread.py):
unique together on (notification, user), with a read_at timestamp. -/
structure NotificationRead where
  notification : Nat
  user : Nat
  read_at : Nat
deriving DecidableEq, Repr

/-- NotificationViewSet.mark_as_read (timetable/views.py lines 305-321):
NotificationRead.objects.get_or_create(notification=nid, user=uid) against
the stored rows, at clock time now. Returns the receipt, the created flag
and the table after the call. -/
def mark_as_read (now : Nat) (st : List NotificationRead) (nid uid : Nat) :
    NotificationRead × Bool × List NotificationRead :=
  match st.find? (fun r => r.notification == nid && r.user == uid) with
  | some r => (r, false, st)
  | none => (⟨nid, uid, now⟩, true, st ++ [⟨nid, uid, now⟩])

/-- Number of stored receipts for one (notification, user) pair. -/
def countReceipts (st : List NotificationRead) (nid uid : Nat) : Nat :=
  (st.filter fun r => r.notification == nid && r.user == uid).length

deriving instance DecidableEq for Except

/-- Concrete room fixture: capacity 10. -/
def roomA : Room := ⟨1, "Main", "101", 10⟩

/-- Concrete group fixture: 25 students. -/
def gBig : Group := ⟨1, "G1", 25⟩

/-- Concrete stored lesson fixture: room 1, date 10, 09:00 to 10:30. -/
def lessonA : Lesson := ⟨1, 1, "CS101", 1, 1, 10, 32400, 37800, [1]⟩

/-- Concrete pre-save snapshot fixture: room 1, date 10, 09:00 to 10:30. -/
def oldA : OldData := ⟨1, "CS101", 1, "Dr A", 1, "Main - 101", "LECTURE", 10, 32400, 37800, [1]⟩

/-- Concrete saved state fixture equal to oldA except for the room (2). -/
def newA : LessonState :=
  ⟨5, 1, "CS101", "Intro", 1, "Dr A", 2, "Main", "202", "LECTURE", "Lecture",
   10, 32400, 37800, [1], ["G1"]⟩

/-- Concrete saved state fixture equal to oldA in every tracked field. -/
def newSame : LessonState :=
  ⟨5, 1, "CS101", "Intro", 1, "Dr A", 1, "Main", "101", "LECTURE", "Lecture",
   10, 32400, 37800, [1], ["G1"]⟩

/-- Concrete stored notification fixture referencing lesson 5. -/
def notifA : Notification :=
  ⟨some 5, "CS101", "Intro", 10, 32400, "G1", "ANNOUNCEMENT",
   "NEW LESSON: CS101 for G1 on 10 at 09:00 in Main - 101", false⟩

/-- C3: for a pair of bookings sharing room and date, the second one is
rejected with a room-tagged violation exactly when the stored window and the
proposed window overlap in the half-open sense, and a merely touching window
is accepted outright. -/
theorem room_overlap_half_open_iff
    (first : Lesson) (date startingTime endingTime : Nat) (room : Room)
    (lecturer : Nat) (groups : List Group)
    (hdate : first.date = date) (hroom : first.roomId = room.id)
    (hts : startingTime < endingTime)
    (hd1 : ¬ endingTime - startingTime < 1800)
    (hd2 : ¬ endingTime - startingTime > 14400)
    (hcap : totalStudents groups ≤ room.capacity) :
    (fieldOf (validate [first] none date startingTime endingTime room lecturer groups)
        = some "room"
      ↔ first.startingTime < endingTime ∧ first.endingTime > startingTime)
    ∧ (first.endingTime = startingTime ∨ first.startingTime = endingTime →
        validate [first] none date startingTime endingTime room lecturer groups
          = .ok ()) := by
  have h0 : ¬ startingTime ≥ endingTime := by omega
  have hcap2 : ¬ (groups ≠ [] ∧ totalStudents groups > room.capacity) := by
    rintro ⟨-, h⟩
    omega
  have hqs : overlapQueryset [first] date none = [first] := by
    simp [overlapQueryset, hdate]
  have herr : first.startingTime < endingTime ∧ first.endingTime > startingTime →
      validate [first] none date startingTime endingTime room lecturer groups
        = .error .roomConflict := by
    intro hov
    unfold validate
    rw [if_neg h0, if_neg hd1, if_neg hd2, if_neg hcap2,
      if_pos ⟨first, by rw [hqs]; exact List.mem_singleton.mpr rfl, hroom, hov.1, hov.2⟩]
  have hok : ¬ (first.startingTime < endingTime ∧ first.endingTime > startingTime) →
      validate [first] none date startingTime endingTime room lecturer groups
        = .ok () := by
    intro hov
    have hmem : ∀ l, l ∈ overlapQueryset [first] date none → l = first := by
      intro l hl
      rw [hqs] at hl
      exact List.mem_singleton.mp hl
    unfold validate
    rw [if_neg h0, if_neg hd1, if_neg hd2, if_neg hcap2, if_neg, if_neg, if_neg]
    · rintro ⟨l, hl, -, h1, h2⟩
      exact hov (hmem l hl ▸ ⟨h1, h2⟩)
    · rintro ⟨l, hl, -, h1, h2⟩
      exact hov (hmem l hl ▸ ⟨h1, h2⟩)
    · rintro ⟨l, hl, -, h1, h2⟩
      exact hov (hmem l hl ▸ ⟨h1, h2⟩)
  constructor
  · constructor
    · intro h
      by_contra hov
      rw [hok hov] at h
      simp [fieldOf] at h
    · intro hov
      rw [herr hov]
      rfl
  · intro htouch
    apply hok
    rintro ⟨h1, h2⟩
    rcases htouch with h | h <;> omega

/-- C3 witness: stored lesson 09:00 to 10:30 versus proposed 10:00 to 11:00
in the same room on the same date. -/
theorem room_overlap_half_open_iff_witness :
    (fieldOf (validate [lessonA] none 10 36000 39600 roomA 2 []) = some "room"
      ↔ lessonA.startingTime < 39600 ∧ lessonA.endingTime > 36000)
    ∧ (lessonA.endingTime = 36000 ∨ lessonA.startingTime = 39600 →
        validate [lessonA] none 10 36000 39600 roomA 2 [] = .ok ()) :=
  room_overlap_half_open_iff lessonA 10 36000 39600 roomA 2 []
    (by decide) (by decide) (by decide) (by decide) (by decide) (by decide)

/-- C5 counterexample: a proposed booking whose groups enrol 25 students
against capacity 10 but whose duration is only 10 minutes is rejected by the
earlier duration check, with the violation tagged ending_time rather than
room, so the claim fails as universally stated. -/
theorem capacity_without_duration_ce :
    totalStudents [gBig] > roomA.capacity
      ∧ validate [] none 10 36000 36600 roomA 2 [gBig] = .error .tooShort
      ∧ fieldOf (validate [] none 10 36000 36600 roomA 2 [gBig])
          = some "ending_time"
      ∧ ("ending_time" : String) ≠ "room" := by
  decide

/-- C5 amended: a booking that passes the time-validity precondition and the
duration-bounds check, and whose selected groups enrol more students than
the room holds, is rejected with the room-tagged capacity violation, whose
message states the capacity and the computed total. -/
theorem capacity_exceeded_rejects
    (existing : List Lesson) (inst : Option Nat)
    (date startingTime endingTime : Nat) (room : Room) (lecturer : Nat)
    (groups : List Group)
    (hts : startingTime < endingTime)
    (hd1 : ¬ endingTime - startingTime < 1800)
    (hd2 : ¬ endingTime - startingTime > 14400)
    (hcap : totalStudents groups > room.capacity) :
    validate existing inst date startingTime endingTime room lecturer groups
        = .error (.capacityExceeded room.capacity (totalStudents groups))
      ∧ (VError.capacityExceeded room.capacity (totalStudents groups)).field = "room"
      ∧ (VError.capacityExceeded room.capacity (totalStudents groups)).message
          = "Room capacity (" ++ toString room.capacity
            ++ ") exceeded. Total students from selected groups: "
            ++ toString (totalStudents groups) := by
  have hne : groups ≠ [] := by
    intro h
    rw [h] at hcap
    simp [totalStudents] at hcap
  have h0 : ¬ startingTime ≥ endingTime := by omega
  refine ⟨?_, rfl, rfl⟩
  unfold validate
  rw [if_neg h0, if_neg hd1, if_neg hd2, if_pos ⟨hne, hcap⟩]

/-- C5 witness: 25 students against capacity 10. -/
theorem capacity_exceeded_rejects_witness :
    validate [] none 10 36000 39600 roomA 2 [gBig]
        = .error (.capacityExceeded roomA.capacity (totalStudents [gBig]))
      ∧ (VError.capacityExceeded roomA.capacity (totalStudents [gBig])).field = "room"
      ∧ (VError.capacityExceeded roomA.capacity (totalStudents [gBig])).message
          = "Room capacity (" ++ toString roomA.capacity
            ++ ") exceeded. Total students from selected groups: "
            ++ toString (totalStudents [gBig]) :=
  capacity_exceeded_rejects [] none 10 36000 39600 roomA 2 [gBig]
    (by decide) (by decide) (by decide) (by decide)

/-- C10: with an empty group selection the capacity check is skipped
entirely, so no input whatsoever can produce the capacity rejection. -/
theorem empty_groups_skip_capacity_check
    (existing : List Lesson) (inst : Option Nat)
    (date startingTime endingTime : Nat) (room : Room) (lecturer : Nat) :
    isCapacityError
      (validate existing inst date startingTime endingTime room lecturer [])
      = false := by
  unfold validate
  repeat' split
  all_goals simp_all [isCapacityError]

/-- C6: validating an update excludes the row with the primary key under
update, so when every stored lesson on the date is the prior state of this
very booking the update is accepted. -/
theorem update_excludes_own_prior_state
    (existing : List Lesson) (pk date startingTime endingTime : Nat)
    (room : Room) (lecturer : Nat) (groups : List Group)
    (hts : startingTime < endingTime)
    (hd1 : ¬ endingTime - startingTime < 1800)
    (hd2 : ¬ endingTime - startingTime > 14400)
    (hcap : totalStudents groups ≤ room.capacity)
    (hown : ∀ l ∈ existing, l.date = date → l.pk = pk) :
    validate existing (some pk) date startingTime endingTime room lecturer groups
      = .ok () := by
  have h0 : ¬ startingTime ≥ endingTime := by omega
  have hcap2 : ¬ (groups ≠ [] ∧ totalStudents groups > room.capacity) := by
    rintro ⟨-, h⟩
    omega
  have hqs : overlapQueryset existing date (some pk) = [] := by
    unfold overlapQueryset
    rw [List.filter_eq_nil_iff]
    intro l hl
    rw [List.mem_filter] at hl
    have hd : l.date = date := by simpa using hl.2
    have hpk : l.pk = pk := hown l hl.1 hd
    simp [hpk]
  have hno : ∀ P : Lesson → Prop, ¬ ∃ l ∈ overlapQueryset existing date (some pk), P l := by
    intro P
    rw [hqs]
    simp
  unfold validate
  rw [if_neg h0, if_neg hd1, if_neg hd2, if_neg hcap2,
    if_neg (hno _), if_neg (hno _), if_neg (hno _)]

/-- C6 witness: shifting the stored lesson by five minutes in its own slot
while it is the only lesson stored on the date. -/
theorem update_excludes_own_prior_state_witness :
    (∀ l ∈ [lessonA], l.date = 10 → l.pk = 1)
    ∧ validate [lessonA] (some 1) 10 32700 38100 roomA 1 [] = .ok () :=
  ⟨by decide,
   update_excludes_own_prior_state [lessonA] 1 10 32700 38100 roomA 1 []
     (by decide) (by decide) (by decide) (by decide) (by decide)⟩

/-- C1 counterexample: a proposed booking with valid start and end ordering
that violates both the capacity constraint and the room overlap constraint,
yet the validator reports only the capacity violation, so the violations are
not collected and returned together. -/
theorem violations_not_aggregated_ce :
    validate [lessonA] none 10 36000 39600 roomA 2 [gBig]
        = .error (.capacityExceeded 10 25)
      ∧ totalStudents [gBig] > roomA.capacity
      ∧ lessonA.date = 10
      ∧ lessonA.roomId = roomA.id
      ∧ lessonA.startingTime < 39600
      ∧ lessonA.endingTime > 36000 := by
  decide

/-- C1 amended: for a time-valid proposal the validator returns exactly the
first failed check in the fixed order duration-lower, duration-upper,
capacity, room overlap, lecturer overlap, group overlap: each possible
outcome occurs precisely when its own check fails and every earlier check
passes, so later violations are never reported alongside or instead of an
earlier one. -/
theorem validate_first_failed_check
    (existing : List Lesson) (inst : Option Nat)
    (date startingTime endingTime : Nat) (room : Room) (lecturer : Nat)
    (groups : List Group)
    (hts : startingTime < endingTime) :
    (validate existing inst date startingTime endingTime room lecturer groups
        = .error .tooShort
      ↔ endingTime - startingTime < 1800)
    ∧ (validate existing inst date startingTime endingTime room lecturer groups
        = .error .tooLong
      ↔ ¬ endingTime - startingTime < 1800
        ∧ endingTime - startingTime > 14400)
    ∧ (validate existing inst date startingTime endingTime room lecturer groups
        = .error (.capacityExceeded room.capacity (totalStudents groups))
      ↔ ¬ endingTime - startingTime < 1800
        ∧ ¬ endingTime - startingTime > 14400
        ∧ (groups ≠ [] ∧ totalStudents groups > room.capacity))
    ∧ (validate existing inst date startingTime endingTime room lecturer groups
        = .error .roomConflict
      ↔ ¬ endingTime - startingTime < 1800
        ∧ ¬ endingTime - startingTime > 14400
        ∧ ¬ (groups ≠ [] ∧ totalStudents groups > room.capacity)
        ∧ (∃ l ∈ overlapQueryset existing date inst,
            l.roomId = room.id ∧ l.startingTime < endingTime
              ∧ l.endingTime > startingTime))
    ∧ (validate existing inst date startingTime endingTime room lecturer groups
        = .error .lecturerConflict
      ↔ ¬ endingTime - startingTime < 1800
        ∧ ¬ endingTime - startingTime > 14400
        ∧ ¬ (groups ≠ [] ∧ totalStudents groups > room.capacity)
        ∧ ¬ (∃ l ∈ overlapQueryset existing date inst,
            l.roomId = room.id ∧ l.startingTime < endingTime
              ∧ l.endingTime > startingTime)
        ∧ (∃ l ∈ overlapQueryset existing date inst,
            l.lecturerId = lecturer ∧ l.startingTime < endingTime
              ∧ l.endingTime > startingTime))
    ∧ (validate existing inst date startingTime endingTime room lecturer groups
        = .error .groupConflict
      ↔ ¬ endingTime - startingTime < 1800
        ∧ ¬ endingTime - startingTime > 14400
        ∧ ¬ (groups ≠ [] ∧ totalStudents groups > room.capacity)
        ∧ ¬ (∃ l ∈ overlapQueryset existing date inst,
            l.roomId = room.id ∧ l.startingTime < endingTime
              ∧ l.endingTime > startingTime)
        ∧ ¬ (∃ l ∈ overlapQueryset existing date inst,
            l.lecturerId = lecturer ∧ l.startingTime < endingTime
              ∧ l.endingTime > startingTime)
        ∧ (∃ l ∈ overlapQueryset existing date inst,
            (∃ g ∈ groups, g.id ∈ l.groupIds)
              ∧ l.startingTime < endingTime ∧ l.endingTime > startingTime))
    ∧ (validate existing inst date startingTime endingTime room lecturer groups
        = .ok ()
      ↔ ¬ endingTime - startingTime < 1800
        ∧ ¬ endingTime - startingTime > 14400
        ∧ ¬ (groups ≠ [] ∧ totalStudents groups > room.capacity)
        ∧ ¬ (∃ l ∈ overlapQueryset existing date inst,
            l.roomId = room.id ∧ l.startingTime < endingTime
              ∧ l.endingTime > startingTime)
        ∧ ¬ (∃ l ∈ overlapQueryset existing date inst,
            l.lecturerId = lecturer ∧ l.startingTime < endingTime
              ∧ l.endingTime > startingTime)
        ∧ ¬ (∃ l ∈ overlapQueryset existing date inst,
            (∃ g ∈ groups, g.id ∈ l.groupIds)
              ∧ l.startingTime < endingTime ∧ l.endingTime > startingTime)) := by
  have h0 : ¬ startingTime ≥ endingTime := by omega
  unfold validate
  rw [if_neg h0]
  by_cases hD1 : endingTime - startingTime < 1800
  · rw [if_pos hD1]
    simp [hD1]
  · rw [if_neg hD1]
    by_cases hD2 : endingTime - startingTime > 14400
    · rw [if_pos hD2]
      simp [hD1, hD2]
    · rw [if_neg hD2]
      by_cases hCAP : groups ≠ [] ∧ totalStudents groups > room.capacity
      · rw [if_pos hCAP]
        simp [hD1, hD2, hCAP]
      · rw [if_neg hCAP]
        by_cases hR : ∃ l ∈ overlapQueryset existing date inst,
            l.roomId = room.id ∧ l.startingTime < endingTime
              ∧ l.endingTime > startingTime
        · rw [if_pos hR]
          simp [hD1, hD2, hCAP, hR]
        · rw [if_neg hR]
          by_cases hL : ∃ l ∈ overlapQueryset existing date inst,
              l.lecturerId = lecturer ∧ l.startingTime < endingTime
                ∧ l.endingTime > startingTime
          · rw [if_pos hL]
            simp [hD1, hD2, hCAP, hR, hL]
          · rw [if_neg hL]
            by_cases hG : ∃ l ∈ overlapQueryset existing date inst,
                (∃ g ∈ groups, g.id ∈ l.groupIds)
                  ∧ l.startingTime < endingTime ∧ l.endingTime > startingTime
            · rw [if_pos hG]
              simp [hD1, hD2, hCAP, hR, hL, hG]
            · rw [if_neg hG]
              simp [hD1, hD2, hCAP, hR, hL, hG]

/-- C1 witness: at the concrete input that violates both capacity and room
overlap, the characterization yields exactly the capacity violation. -/
theorem validate_first_failed_check_witness :
    validate [lessonA] none 10 36000 39600 roomA 2 [gBig]
      = .error (.capacityExceeded roomA.capacity (totalStudents [gBig])) :=
  ((validate_first_failed_check [lessonA] none 10 36000 39600 roomA 2 [gBig]
      (by decide)).2.2.1).mpr (by decide)

/-- C4 counterexample: a reported room overlap violation whose message names
neither the conflicting booking course code CS101 nor its window 09:00 to
10:30, refuting the claim that the message names the conflicting subject and
time window. -/
theorem room_conflict_message_ce :
    validate [lessonA] none 10 36000 39600 roomA 2 [] = .error .roomConflict
      ∧ strContains (VError.message .roomConflict) lessonA.courseCode = false
      ∧ strContains (VError.message .roomConflict) (formatTime lessonA.startingTime)
          = false
      ∧ strContains (VError.message .roomConflict) (formatTime lessonA.endingTime)
          = false
      ∧ formatTime lessonA.startingTime = "09:00"
      ∧ formatTime lessonA.endingTime = "10:30" := by
  decide

/-- C4 amended: whenever a room overlap violation is reported, its message is
the fixed text naming no particular conflicting booking; the check is a bare
existence test, independent of which and how many stored bookings conflict. -/
theorem room_conflict_message_fixed
    (existing : List Lesson) (inst : Option Nat)
    (date startingTime endingTime : Nat) (room : Room) (lecturer : Nat)
    (groups : List Group)
    (hts : startingTime < endingTime)
    (hd1 : ¬ endingTime - startingTime < 1800)
    (hd2 : ¬ endingTime - startingTime > 14400)
    (hcap : totalStudents groups ≤ room.capacity)
    (hconf : ∃ l ∈ overlapQueryset existing date inst,
      l.roomId = room.id ∧ l.startingTime < endingTime
        ∧ l.endingTime > startingTime) :
    validate existing inst date startingTime endingTime room lecturer groups
        = .error .roomConflict
      ∧ VError.message .roomConflict
          = "This room is already occupied during this time slot." := by
  have h0 : ¬ startingTime ≥ endingTime := by omega
  have hcap2 : ¬ (groups ≠ [] ∧ totalStudents groups > room.capacity) := by
    rintro ⟨-, h⟩
    omega
  refine ⟨?_, rfl⟩
  unfold validate
  rw [if_neg h0, if_neg hd1, if_neg hd2, if_neg hcap2, if_pos hconf]

/-- C4 witness: concrete conflicting pair, fixed message returned. -/
theorem room_conflict_message_fixed_witness :
    validate [lessonA] none 10 36000 39600 roomA 2 [] = .error .roomConflict
      ∧ VError.message .roomConflict
        = "This room is already occupied during this time slot." :=
  room_conflict_message_fixed [lessonA] none 10 36000 39600 roomA 2 []
    (by decide) (by decide) (by decide) (by decide)
    ⟨lessonA, by decide, by decide, by decide, by decide⟩

/-- C2 counterexample: an update whose only change is the room produces one
Notification classified RESCHEDULE, not ROOM_CHANGE, and ROOM_CHANGE is not
even among the message_type choices of the Notification model. -/
theorem room_change_classification_ce :
    (lesson_save_notification false (some oldA) newA).map Notification.message_type
        = ["RESCHEDULE"]
      ∧ oldA.room_id ≠ newA.roomId
      ∧ oldA.course_id = newA.courseId
      ∧ oldA.lecturer_id = newA.lecturerId
      ∧ oldA.lesson_type = newA.lessonType
      ∧ oldA.date = newA.date
      ∧ oldA.starting_time = newA.startingTime
      ∧ oldA.ending_time = newA.endingTime
      ∧ sameSet oldA.group_ids newA.groupIds = true
      ∧ ("RESCHEDULE" : String) ≠ "ROOM_CHANGE"
      ∧ "ROOM_CHANGE" ∉ notificationTypeChoices.map Prod.fst := by
  decide

/-- C2 amended: an update whose only changed field is the room produces
exactly one Notification, classified RESCHEDULE, whose message names the new
room as Room changed to building - hall. -/
theorem room_only_update_notification
    (o : OldData) (inst : LessonState)
    (hc : o.course_id = inst.courseId)
    (hl : o.lecturer_id = inst.lecturerId)
    (hr : o.room_id ≠ inst.roomId)
    (ht : o.lesson_type = inst.lessonType)
    (hd : o.date = inst.date)
    (hs : o.starting_time = inst.startingTime)
    (he : o.ending_time = inst.endingTime)
    (hg : sameSet o.group_ids inst.groupIds = true) :
    ∃ n, lesson_save_notification false (some o) inst = [n]
      ∧ n.message_type = "RESCHEDULE"
      ∧ n.message_text = "UPDATED: " ++ baseMsg inst ++ ". Changes: "
          ++ ("Room changed to " ++ inst.roomBuilding ++ " - " ++ inst.roomHall) := by
  have hcf : changedFields o inst
      = ["Room changed to " ++ inst.roomBuilding ++ " - " ++ inst.roomHall] := by
    unfold changedFields
    rw [if_neg (not_not_intro hc), if_neg (not_not_intro hl), if_pos hr,
      if_neg (not_not_intro ht), if_neg (not_not_intro hd),
      if_neg (not_not_intro hs), if_neg (not_not_intro he), if_pos hg]
    simp
  refine ⟨create_lesson_notification inst "RESCHEDULE" (changedFields o inst),
    ?_, rfl, ?_⟩
  · simp [lesson_save_notification, hcf]
  · rw [hcf]
    rfl

/-- C2 amended witness: the concrete room-only update. -/
theorem room_only_update_notification_witness :
    ∃ n, lesson_save_notification false (some oldA) newA = [n]
      ∧ n.message_type = "RESCHEDULE"
      ∧ n.message_text = "UPDATED: " ++ baseMsg newA ++ ". Changes: "
          ++ ("Room changed to " ++ newA.roomBuilding ++ " - " ++ newA.roomHall) :=
  room_only_update_notification oldA newA (by decide) (by decide) (by decide)
    (by decide) (by decide) (by decide) (by decide) (by decide)

/-- C7: an update in which every tracked field is unchanged, with the group
sets compared as sets, produces no Notification. -/
theorem noop_update_no_notification
    (o : OldData) (inst : LessonState)
    (hc : o.course_id = inst.courseId)
    (hl : o.lecturer_id = inst.lecturerId)
    (hr : o.room_id = inst.roomId)
    (ht : o.lesson_type = inst.lessonType)
    (hd : o.date = inst.date)
    (hs : o.starting_time = inst.startingTime)
    (he : o.ending_time = inst.endingTime)
    (hg : sameSet o.group_ids inst.groupIds = true) :
    lesson_save_notification false (some o) inst = [] := by
  have hcf : changedFields o inst = [] := by
    unfold changedFields
    rw [if_neg (not_not_intro hc), if_neg (not_not_intro hl),
      if_neg (not_not_intro hr), if_neg (not_not_intro ht),
      if_neg (not_not_intro hd), if_neg (not_not_intro hs),
      if_neg (not_not_intro he), if_pos hg]
    rfl
  simp [lesson_save_notification, hcf]

/-- C7 witness: a concrete no-op update produces no Notification. -/
theorem noop_update_no_notification_witness :
    lesson_save_notification false (some oldA) newSame = [] :=
  noop_update_no_notification oldA newSame (by decide) (by decide) (by decide)
    (by decide) (by decide) (by decide) (by decide) (by decide)

/-- C8: deleting a lesson keeps every notification that referenced it, with
all denormalized snapshot fields unchanged and the lesson reference nulled;
the table only grows by the cancellation notification the deletion itself
writes. -/
theorem notification_survives_lesson_delete
    (inst : LessonState) (notifs : List Notification) (n : Notification)
    (hmem : n ∈ notifs) (href : n.lesson = some inst.pk) :
    (∃ m ∈ perform_destroy inst notifs,
        m.lesson = none
      ∧ m.course_code = n.course_code
      ∧ m.course_title = n.course_title
      ∧ m.lesson_date = n.lesson_date
      ∧ m.lesson_time = n.lesson_time
      ∧ m.group_names = n.group_names)
    ∧ (perform_destroy inst notifs).length = notifs.length + 1 := by
  constructor
  · refine ⟨{ n with lesson := none }, ?_, rfl, rfl, rfl, rfl, rfl, rfl⟩
    unfold perform_destroy deleteLessonCascade
    have h1 : n ∈ notifs ++ [create_lesson_notification inst "CANCELLATION" []] :=
      List.mem_append_left _ hmem
    have h2 := List.mem_map_of_mem
      (fun m => if m.lesson == some inst.pk then { m with lesson := none } else m) h1
    simpa [href] using h2
  · unfold perform_destroy deleteLessonCascade
    simp

/-- C8 witness: concrete deletion of lesson 5 with one stored notification
referencing it. -/
theorem notification_survives_lesson_delete_witness :
    (∃ m ∈ perform_destroy newSame [notifA],
        m.lesson = none
      ∧ m.course_code = notifA.course_code
      ∧ m.course_title = notifA.course_title
      ∧ m.lesson_date = notifA.lesson_date
      ∧ m.lesson_time = notifA.lesson_time
      ∧ m.group_names = notifA.group_names)
    ∧ (perform_destroy newSame [notifA]).length = [notifA].length + 1 :=
  notification_survives_lesson_delete newSame [notifA] notifA (by decide) (by decide)

/-- C9: mark_as_read is idempotent. A second call for the same pair returns
the receipt of the first call unchanged, reports created false, leaves the
table unchanged, and after the first call the pair holds max of its previous
count and one receipt, so at most one receipt per pair ever arises. -/
theorem mark_as_read_idempotent
    (st : List NotificationRead) (nid uid t1 t2 : Nat) :
    mark_as_read t2 (mark_as_read t1 st nid uid).2.2 nid uid
        = ((mark_as_read t1 st nid uid).1, false, (mark_as_read t1 st nid uid).2.2)
      ∧ countReceipts (mark_as_read t1 st nid uid).2.2 nid uid
        = max (countReceipts st nid uid) 1 := by
  cases hfind : st.find? (fun r => r.notification == nid && r.user == uid) with
  | some r =>
    have h1 : mark_as_read t1 st nid uid = (r, false, st) := by
      unfold mark_as_read
      rw [hfind]
    rw [h1]
    constructor
    · unfold mark_as_read
      rw [hfind]
    · have hpr :=
        List.find?_some
          (p := fun r : NotificationRead => r.notification == nid && r.user == uid)
          hfind
      have hr : r ∈ st.filter (fun r => r.notification == nid && r.user == uid) :=
        List.mem_filter.mpr ⟨List.mem_of_find?_eq_some hfind, hpr⟩
      have hpos : 1 ≤ countReceipts st nid uid := by
        unfold countReceipts
        exact List.length_pos_of_mem hr
      exact (Nat.max_eq_left hpos).symm
  | none =>
    have h1 : mark_as_read t1 st nid uid
        = (⟨nid, uid, t1⟩, true, st ++ [⟨nid, uid, t1⟩]) := by
      unfold mark_as_read
      rw [hfind]
    have hnil : List.filter (fun r => r.notification == nid && r.user == uid) st
        = [] := by
      rw [List.filter_eq_nil_iff]
      intro a ha hpa
      exact absurd hpa (by simpa using List.find?_eq_none.mp hfind a ha)
    have hfind2 : (st ++ [(⟨nid, uid, t1⟩ : NotificationRead)]).find?
        (fun r => r.notification == nid && r.user == uid)
        = some ⟨nid, uid, t1⟩ := by
      rw [List.find?_append, hfind]
      simp
    rw [h1]
    constructor
    · unfold mark_as_read
      rw [hfind2]
    · unfold countReceipts
      rw [List.filter_append, hnil]
      simp

end Collis
